import Mathlib

/-!
# scripts/populate_supabase.go

A shallow embedding of the seeding script: configuration resolution from the
process environment, the dry-run renderer and the upsert executor.

Conventions of the embedding.

* Go strings are rendered as Lean strings; `fmt.Sprintf` with `%s` verbs is
  string concatenation, `%d` on an `int` is the decimal rendering `toString`
  of an `Int`, and `%v` / `%w` on an error is its message.
* What the program does to the outside is a trace of `Event`s followed by an
  `Exit`: `log.Fatalf` writes one log entry and ends the process with a
  non-zero status, a plain return from `main` ends it with status zero.
* The standard library (`encoding/json`, `net/http`) is not part of the
  repository.  Its results are the fields of `Lib`, over which every theorem
  quantifies; what the script does with those results is translated from the
  source.
* `main` starts after `flag.Parse()` has returned: `dry` is the value of the
  `--dry-run` flag.
-/

namespace PopulateSupabase

/-! ## Data model -/

/-- Values that occur in the record literals of `main` (`interface{}` in the
source).  A floating-point constant such as `7.2` is kept as its decimal
literal: `float 72 1`. -/
inductive Value where
  | str (s : String)
  | int (n : Int)
  | float (mantissa : Int) (decimals : Nat)
  | strs (l : List String)
  deriving DecidableEq

/-- One record, `map[string]interface{}`: the key/value pairs of the literal
in source order (Go rejects a literal with a repeated constant key). -/
abbrev Record := List (String × Value)

/-- A record collection, `[]map[string]interface{}`. -/
abbrev Items := List Record

/-! ## net/http values -/

/-- The header map `http.Header`, `map[string][]string`, as an association list. -/
abbrev Header := List (String × List String)

/-- The bytes `net/textproto` accepts in a header field name (RFC 7230 token). -/
def validHeaderFieldByte (c : Char) : Bool :=
  c.isAlphanum || "!#$%&*+-.^_|~".toList.contains c || c == Char.ofNat 39 || c == Char.ofNat 96

/-- The casing loop of `textproto.CanonicalMIMEHeaderKey`: the first letter and
every letter after a hyphen upper case, the others lower case. -/
def canonicalLoop : Bool → List Char → List Char
  | _, [] => []
  | upper, c :: cs =>
    let c1 := if upper && c.isLower then c.toUpper
              else if !upper && c.isUpper then c.toLower
              else c
    c1 :: canonicalLoop (c1 == '-') cs

/-- The function `textproto.CanonicalMIMEHeaderKey`: a key with a byte that is
not valid in a field name is returned unchanged. -/
def canonicalMIMEHeaderKey (s : String) : String :=
  if s.toList.all validHeaderFieldByte then String.mk (canonicalLoop true s.toList) else s

/-- The method `Header.Set`: `h[CanonicalMIMEHeaderKey(key)] = []string{value}`. -/
def Header.set (h : Header) (key value : String) : Header :=
  (canonicalMIMEHeaderKey key, [value]) :: h.filter (fun p => p.1 != canonicalMIMEHeaderKey key)

/-- The method `Header.Get`: the first value stored under the canonical key, or `""`. -/
def Header.get (h : Header) (key : String) : String :=
  match h.lookup (canonicalMIMEHeaderKey key) with
  | some (v :: _) => v
  | _ => ""

/-- An `*http.Request` as `upsert` builds it.  The field `url` is the text given
to `http.NewRequest` (the local `url` of `upsert`); the field `URL` is `req.URL`,
the URL the library parsed from that text, as `URL.String()` renders it. -/
structure Request where
  method : String
  url : String
  URL : String
  body : String
  header : Header
  deriving DecidableEq

/-- The method `req.Header.Set`. -/
def Request.setHeader (req : Request) (key value : String) : Request :=
  Request.mk req.method req.url req.URL req.body (req.header.set key value)

/-- An `*http.Response` as `upsert` reads it: `resp.StatusCode` and the bytes
that `io.ReadAll(resp.Body)` returned (its error is discarded by the source). -/
structure Response where
  statusCode : Int
  body : String
  deriving DecidableEq

/-- The value `&http.Client{Timeout: ...}`; the timeout in seconds. -/
structure Client where
  timeoutSeconds : Nat
  deriving DecidableEq

/-- Outcome of `client.Do(req)`: a response, or a transport error with its message. -/
inductive DoResult where
  | response (resp : Response)
  | transportError (msg : String)
  deriving DecidableEq

/-- Results of the standard-library calls the script makes. -/
structure Lib where
  /-- Result of `json.Marshal(items)`: the encoded bytes, or the error message. -/
  jsonMarshal : Items → Except String String
  /-- Result of `json.MarshalIndent(items, "", "  ")`: the encoded bytes, or the
  error message. -/
  jsonMarshalIndent : Items → Except String String
  /-- The error of `http.NewRequest(method, url, body)`, `none` when it succeeds. -/
  newRequestError : String → String → Option String
  /-- What `url.Parse` makes of a URL text that `http.NewRequest` accepts, as
  `URL.String()` renders it: the `req.URL` of the new request. -/
  parsedURL : String → String
  /-- Outcome of `client.Do(req)`. -/
  clientDo : Client → Request → DoResult

/-- The call `http.NewRequest`: when the library accepts method and URL, a request
with that method, the URL parsed from the text, that body and an empty header. -/
def newRequest (lib : Lib) (method url body : String) : Except String Request :=
  match lib.newRequestError method url with
  | some err => .error err
  | none => .ok (Request.mk method url (lib.parsedURL url) body [])

/-! ## Effects -/

/-- What a run does, in order. -/
inductive Event where
  /-- Text written to standard output (`fmt.Printf`, `fmt.Println`). -/
  | stdout (text : String)
  /-- One entry written by the `log` package (message without the logger prefix). -/
  | log (msg : String)
  /-- Construction of the HTTP client (line 99). -/
  | newClient (client : Client)
  /-- Entry into `upsert` for a table. -/
  | upsertCall (table : String)
  /-- A call `client.Do(req)` and its outcome. -/
  | httpDo (req : Request) (res : DoResult)
  deriving DecidableEq

/-- How the process ends: `ok` is a return from `main`, `fatal` is the
`os.Exit(1)` of `log.Fatalf`. -/
inductive Exit where
  | ok
  | fatal
  deriving DecidableEq

/-- A complete run of `main`. -/
structure Run where
  trace : List Event
  exit : Exit
  deriving DecidableEq

/-- The requests handed to `client.Do` in a trace, in order. -/
def requests : List Event → List Request
  | [] => []
  | Event.httpDo req _ :: es => req :: requests es
  | _ :: es => requests es

/-- The log entries of a trace, in order. -/
def logs : List Event → List String
  | [] => []
  | Event.log msg :: es => msg :: logs es
  | _ :: es => logs es

/-- The standard-output writes of a trace, in order. -/
def stdouts : List Event → List String
  | [] => []
  | Event.stdout text :: es => text :: stdouts es
  | _ :: es => stdouts es

/-! ## The script -/

/-- The process environment: `os.Getenv` yields `""` for an unset variable. -/
abbrev Env := String → String

/-- Lines 22–32 of `main`: the endpoint and the credential after the fallback. -/
def resolveConfig (env : Env) : String × String :=
  let supabaseURL := env "SUPABASE_URL"
  let supabaseKey := env "SUPABASE_KEY"
  if supabaseURL = "" ∨ supabaseKey = "" then
    let supabaseURL := if supabaseURL = "" then env "VITE_SUPABASE_URL" else supabaseURL
    let supabaseKey := if supabaseKey = "" then env "VITE_SUPABASE_ANON_KEY" else supabaseKey
    (supabaseURL, supabaseKey)
  else
    (supabaseURL, supabaseKey)

/-- The message of the `log.Fatalf` on line 35. -/
def configError : String :=
  "Erro: defina SUPABASE_URL e SUPABASE_KEY no ambiente antes de executar"

/-- The run that ends at the configuration step (lines 34–36). -/
def configFatal : Run :=
  Run.mk [Event.log configError] Exit.fatal

/-- Lines 38–64 of `main`. -/
def movies : Items :=
  [ [ ("title", .str "Exemplo Filme 2022"),
      ("description", .str "Filme de teste inserido por script (2022)."),
      ("poster", .str "https://via.placeholder.com/500x750.png?text=Filme+2022"),
      ("backdrop", .str "https://via.placeholder.com/1200x675.png?text=Backdrop+Filme+2022"),
      ("logo_url", .str ""),
      ("year", .int 2022),
      ("rating", .float 72 1),
      ("genre", .strs ["Drama", "Aventura"]),
      ("stream_url", .str "https://example.com/stream/filme2022.m3u8"),
      ("tmdb_id", .int 1000001),
      ("status", .str "published") ],
    [ ("title", .str "Exemplo Filme 2023"),
      ("description", .str "Outro filme de teste (2023)."),
      ("poster", .str "https://via.placeholder.com/500x750.png?text=Filme+2023"),
      ("backdrop", .str "https://via.placeholder.com/1200x675.png?text=Backdrop+Filme+2023"),
      ("year", .int 2023),
      ("rating", .float 68 1),
      ("genre", .strs ["Comédia"]),
      ("stream_url", .str "https://example.com/stream/filme2023.m3u8"),
      ("tmdb_id", .int 1000002),
      ("status", .str "published") ] ]

/-- Lines 66–90 of `main`. -/
def series : Items :=
  [ [ ("title", .str "Exemplo Série 2022"),
      ("description", .str "Série de teste (2022)."),
      ("poster", .str "https://via.placeholder.com/500x750.png?text=Serie+2022"),
      ("backdrop", .str "https://via.placeholder.com/1200x675.png?text=Backdrop+Serie+2022"),
      ("year", .int 2022),
      ("rating", .float 81 1),
      ("genre", .strs ["Drama"]),
      ("stream_url", .str ""),
      ("tmdb_id", .int 2000001),
      ("status", .str "published") ],
    [ ("title", .str "Exemplo Série 2024"),
      ("description", .str "Série de teste (2024)."),
      ("poster", .str "https://via.placeholder.com/500x750.png?text=Serie+2024"),
      ("backdrop", .str "https://via.placeholder.com/1200x675.png?text=Backdrop+Serie+2024"),
      ("year", .int 2024),
      ("rating", .float 79 1),
      ("genre", .strs ["Família", "Aventura"]),
      ("tmdb_id", .int 2000002),
      ("status", .str "published") ] ]

/-- The function `prettyPrint`: the error of `json.MarshalIndent` is discarded, so
a failed encoding prints an empty payload. -/
def prettyPrint (lib : Lib) (kind : String) (items : Items) : List Event :=
  let b := match lib.jsonMarshalIndent items with
    | .ok b => b
    | .error _ => ""
  [Event.stdout ("--- " ++ kind ++ " payload ---\n" ++ b ++ "\n")]

/-- The function `upsert`: the events it causes and the error it returns
(`none` is `nil`). -/
def upsert (lib : Lib) (client : Client) (supabaseURL supabaseKey table : String)
    (items : Items) : List Event × Option String :=
  let url := supabaseURL ++ "/rest/v1/" ++ table ++ "?on_conflict=tmdb_id"
  match lib.jsonMarshal items with
  | .error err => ([Event.upsertCall table], some ("marshal payload: " ++ err))
  | .ok body =>
    match newRequest lib "POST" url body with
    | .error err => ([Event.upsertCall table], some ("new request: " ++ err))
    | .ok req =>
      let req := req.setHeader "Content-Type" "application/json"
      let req := req.setHeader "apikey" supabaseKey
      let req := req.setHeader "Authorization" ("Bearer " ++ supabaseKey)
      let req := req.setHeader "Prefer" "return=representation"
      match lib.clientDo client req with
      | .transportError err =>
        ([Event.upsertCall table, Event.httpDo req (.transportError err)],
          some ("request failed: " ++ err))
      | .response resp =>
        if resp.statusCode ≥ 400 then
          ([Event.upsertCall table, Event.httpDo req (.response resp)],
            some ("status " ++ toString resp.statusCode ++ ": " ++ resp.body))
        else
          ([Event.upsertCall table, Event.httpDo req (.response resp),
            Event.log ("[upsert " ++ table ++ "] status=" ++ toString resp.statusCode
              ++ ", response=" ++ resp.body)],
            none)

/-- The function `main`, after `flag.Parse()`; `dry` is the `--dry-run` flag. -/
def main (lib : Lib) (env : Env) (dry : Bool) : Run :=
  let supabaseURL := (resolveConfig env).1
  let supabaseKey := (resolveConfig env).2
  if supabaseURL = "" ∨ supabaseKey = "" then
    Run.mk [Event.log configError] Exit.fatal
  else if dry then
    Run.mk (prettyPrint lib "movies" movies ++ prettyPrint lib "series" series
      ++ [Event.stdout "-- dry-run: nenhum dado enviado\n"]) Exit.ok
  else
    let client := Client.mk 20
    match upsert lib client supabaseURL supabaseKey "movies" movies with
    | (ev1, some err) =>
      Run.mk (Event.newClient client :: ev1 ++ [Event.log ("Falha upsert movies: " ++ err)])
        Exit.fatal
    | (ev1, none) =>
      let ev1 := ev1 ++ [Event.log "Filmes inseridos/atualizados com sucesso."]
      match upsert lib client supabaseURL supabaseKey "series" series with
      | (ev2, some err) =>
        Run.mk (Event.newClient client :: ev1 ++ ev2
          ++ [Event.log ("Falha upsert series: " ++ err)]) Exit.fatal
      | (ev2, none) =>
        Run.mk (Event.newClient client :: ev1 ++ ev2
          ++ [Event.log "Séries inseridas/atualizados com sucesso."]) Exit.ok

/-- The conflict key of a record: the value stored under `tmdb_id`. -/
def tmdbID (r : Record) : Option Value :=
  r.lookup "tmdb_id"

/-! ## Sample worlds, used to evaluate the script on concrete inputs -/

/-- An environment given by its set variables. -/
def envOf (vars : List (String × String)) : Env :=
  fun name => (vars.lookup name).getD ""

/-- The first check of `url.Parse` (`stringContainsCTLByte`): some byte is below
0x20 or is 0x7f. -/
def stringContainsCTLByte (s : String) : Bool :=
  s.toList.any (fun c => c.toNat < 32 || c.toNat == 127)

/-- The scheme step of `url.Parse`: the text before the first colon is the
scheme and is lower-cased; a text without a colon is kept. -/
def schemeLowered (s : String) : String :=
  match s.toList.dropWhile (fun c => c != ':') with
  | [] => s
  | rest => String.mk ((s.toList.takeWhile (fun c => c != ':')).map Char.toLower ++ rest)

/-- A world in which the server outcome is given by `answer`.  The encoders
succeed, as `encoding/json` does on records of strings, integers, finite floats
and string slices, with a placeholder for the encoded bytes.  The call
`http.NewRequest` refuses a URL with a control byte, as `net/url` does (the
message is the reason it gives, without the quoted URL in front), and accepts
the others; the parsed URL is the text with its scheme lower-cased, which is
what `net/url` renders for a URL of the form `scheme://host/path?query` whose
host, path and query need no escaping. -/
def sampleLib (answer : Request → DoResult) : Lib :=
  Lib.mk
    (fun items => .ok ("<json: " ++ toString items.length ++ " records>"))
    (fun items => .ok ("<indented json: " ++ toString items.length ++ " records>"))
    (fun _ url =>
      if stringContainsCTLByte url then some "net/url: invalid control character in URL"
      else none)
    schemeLowered
    (fun _ req => answer req)

/-- A server that answers every request with the given status and body. -/
def answerWith (status : Int) (body : String) : Request → DoResult :=
  fun _ => DoResult.response (Response.mk status body)

/-- The request for `movies` under `sampleLib`, endpoint `https://demo.supabase.co`
and credential `service-key`. -/
def demoMoviesRequest : Request :=
  Request.mk "POST" "https://demo.supabase.co/rest/v1/movies?on_conflict=tmdb_id"
    "https://demo.supabase.co/rest/v1/movies?on_conflict=tmdb_id"
    "<json: 2 records>"
    [("Prefer", ["return=representation"]), ("Authorization", ["Bearer service-key"]),
     ("Apikey", ["service-key"]), ("Content-Type", ["application/json"])]

/-- Both primary variables set. -/
def primaryEnv : Env :=
  envOf [("SUPABASE_URL", "https://demo.supabase.co"), ("SUPABASE_KEY", "service-key")]

/-- Only the two fallback variables set. -/
def fallbackEnv : Env :=
  envOf [("VITE_SUPABASE_URL", "https://demo.supabase.co"), ("VITE_SUPABASE_ANON_KEY", "anon-key")]

/-- The endpoint set only in the primary pair, the credential only in the fallback pair. -/
def mixedEnv : Env :=
  envOf [("SUPABASE_URL", "https://demo.supabase.co"), ("VITE_SUPABASE_ANON_KEY", "anon-key")]

/-- Only the endpoint set; no credential in either pair. -/
def urlOnlyEnv : Env :=
  envOf [("SUPABASE_URL", "https://demo.supabase.co"), ("VITE_SUPABASE_URL", "https://demo.supabase.co")]

/-- No variable set. -/
def emptyEnv : Env :=
  envOf []

/-- The endpoint ends in a carriage return, as a value read from a file with
CRLF line ends does. -/
def crEnv : Env :=
  envOf [("SUPABASE_URL", "https://demo.supabase.co\r"), ("SUPABASE_KEY", "service-key")]

/-! ## Configuration resolution -/

theorem resolveConfig_fst (env : Env) :
    (resolveConfig env).1
      = if env "SUPABASE_URL" = "" then env "VITE_SUPABASE_URL" else env "SUPABASE_URL" := by
  unfold resolveConfig
  by_cases hu : env "SUPABASE_URL" = "" <;> by_cases hk : env "SUPABASE_KEY" = "" <;>
    simp [hu, hk]

theorem resolveConfig_snd (env : Env) :
    (resolveConfig env).2
      = if env "SUPABASE_KEY" = "" then env "VITE_SUPABASE_ANON_KEY" else env "SUPABASE_KEY" := by
  unfold resolveConfig
  by_cases hu : env "SUPABASE_URL" = "" <;> by_cases hk : env "SUPABASE_KEY" = "" <;>
    simp [hu, hk]

theorem main_of_config_empty (lib : Lib) (env : Env) (dry : Bool)
    (h : (resolveConfig env).1 = "" ∨ (resolveConfig env).2 = "") :
    main lib env dry = configFatal := by
  unfold main configFatal
  simp only [if_pos h]

theorem main_dry_of_config (lib : Lib) (env : Env)
    (h : ¬ ((resolveConfig env).1 = "" ∨ (resolveConfig env).2 = "")) :
    main lib env true
      = Run.mk (prettyPrint lib "movies" movies ++ prettyPrint lib "series" series
          ++ [Event.stdout "-- dry-run: nenhum dado enviado\n"]) Exit.ok := by
  unfold main
  simp only [if_neg h, if_true]

theorem main_live_head (lib : Lib) (env : Env)
    (h : ¬ ((resolveConfig env).1 = "" ∨ (resolveConfig env).2 = "")) :
    ∃ rest, (main lib env false).trace = Event.newClient (Client.mk 20) :: rest := by
  unfold main
  simp only [if_neg h, Bool.false_eq_true, if_false]
  split
  · exact ⟨_, rfl⟩
  · split
    · exact ⟨_, rfl⟩
    · exact ⟨_, rfl⟩

theorem main_ne_configFatal (lib : Lib) (env : Env) (dry : Bool)
    (h : ¬ ((resolveConfig env).1 = "" ∨ (resolveConfig env).2 = "")) :
    main lib env dry ≠ configFatal := by
  intro heq
  cases dry with
  | true =>
    rw [main_dry_of_config lib env h] at heq
    have := congrArg Run.exit heq
    simp [configFatal] at this
  | false =>
    obtain ⟨rest, hrest⟩ := main_live_head lib env h
    rw [heq] at hrest
    simp [configFatal] at hrest

/-! ## The upsert executor -/

theorem canonical_content_type : canonicalMIMEHeaderKey "Content-Type" = "Content-Type" := by
  decide

theorem canonical_apikey : canonicalMIMEHeaderKey "apikey" = "Apikey" := by
  decide

theorem canonical_authorization : canonicalMIMEHeaderKey "Authorization" = "Authorization" := by
  decide

theorem canonical_prefer : canonicalMIMEHeaderKey "Prefer" = "Prefer" := by
  decide

/-- The header after the four `Header.Set` calls of lines 128–131. -/
theorem upsert_header (supabaseKey : String) :
    Header.set (Header.set (Header.set (Header.set [] "Content-Type" "application/json")
          "apikey" supabaseKey) "Authorization" ("Bearer " ++ supabaseKey))
        "Prefer" "return=representation"
      = [("Prefer", ["return=representation"]),
         ("Authorization", ["Bearer " ++ supabaseKey]),
         ("Apikey", [supabaseKey]),
         ("Content-Type", ["application/json"])] := by
  simp [Header.set, canonical_content_type, canonical_apikey,
    canonical_authorization, canonical_prefer]

/-- What `upsert` does once the payload is encoded and `http.NewRequest` has
accepted the URL: it hands the request to the client and branches on the outcome. -/
theorem upsert_of_request_built (lib : Lib) (client : Client)
    (supabaseURL supabaseKey table : String) (items : Items) (body : String)
    (hm : lib.jsonMarshal items = .ok body)
    (hn : lib.newRequestError "POST"
      (supabaseURL ++ "/rest/v1/" ++ table ++ "?on_conflict=tmdb_id") = none) :
    ∃ req res, lib.clientDo client req = res
      ∧ req = Request.mk "POST" (supabaseURL ++ "/rest/v1/" ++ table ++ "?on_conflict=tmdb_id")
          (lib.parsedURL (supabaseURL ++ "/rest/v1/" ++ table ++ "?on_conflict=tmdb_id"))
          body
          (Header.set (Header.set (Header.set (Header.set [] "Content-Type" "application/json")
          "apikey" supabaseKey) "Authorization" ("Bearer " ++ supabaseKey)) "Prefer" "return=representation")
      ∧ upsert lib client supabaseURL supabaseKey table items
        = match res with
          | .transportError err =>
            ([Event.upsertCall table, Event.httpDo req res], some ("request failed: " ++ err))
          | .response resp =>
            if resp.statusCode ≥ 400 then
              ([Event.upsertCall table, Event.httpDo req res],
                some ("status " ++ toString resp.statusCode ++ ": " ++ resp.body))
            else
              ([Event.upsertCall table, Event.httpDo req res,
                Event.log ("[upsert " ++ table ++ "] status=" ++ toString resp.statusCode
                  ++ ", response=" ++ resp.body)], none) := by
  refine ⟨_, _, rfl, rfl, ?_⟩
  unfold upsert newRequest
  simp only [hm, hn, Request.setHeader]
  cases hres : lib.clientDo client (Request.mk "POST"
      (supabaseURL ++ "/rest/v1/" ++ table ++ "?on_conflict=tmdb_id")
      (lib.parsedURL (supabaseURL ++ "/rest/v1/" ++ table ++ "?on_conflict=tmdb_id"))
      body
      (Header.set (Header.set (Header.set (Header.set [] "Content-Type" "application/json")
          "apikey" supabaseKey) "Authorization" ("Bearer " ++ supabaseKey)) "Prefer" "return=representation")) with
  | response resp => simp
  | transportError err => simp

theorem upsert_of_marshal_error (lib : Lib) (client : Client)
    (supabaseURL supabaseKey table : String) (items : Items) (err : String)
    (hm : lib.jsonMarshal items = .error err) :
    upsert lib client supabaseURL supabaseKey table items
      = ([Event.upsertCall table], some ("marshal payload: " ++ err)) := by
  unfold upsert
  simp only [hm]

theorem upsert_of_new_request_error (lib : Lib) (client : Client)
    (supabaseURL supabaseKey table : String) (items : Items) (body err : String)
    (hm : lib.jsonMarshal items = .ok body)
    (hn : lib.newRequestError "POST"
      (supabaseURL ++ "/rest/v1/" ++ table ++ "?on_conflict=tmdb_id") = some err) :
    upsert lib client supabaseURL supabaseKey table items
      = ([Event.upsertCall table], some ("new request: " ++ err)) := by
  unfold upsert newRequest
  simp only [hm, hn]

/-- What `upsert` does when the client delivers the response `resp` to the
request built in lines 118–131. -/
theorem upsert_of_response (lib : Lib) (client : Client)
    (supabaseURL supabaseKey table : String) (items : Items) (body : String) (resp : Response)
    (hm : lib.jsonMarshal items = .ok body)
    (hn : lib.newRequestError "POST"
      (supabaseURL ++ "/rest/v1/" ++ table ++ "?on_conflict=tmdb_id") = none)
    (hdo : lib.clientDo client
      (Request.mk "POST" (supabaseURL ++ "/rest/v1/" ++ table ++ "?on_conflict=tmdb_id")
        (lib.parsedURL (supabaseURL ++ "/rest/v1/" ++ table ++ "?on_conflict=tmdb_id"))
        body
        (Header.set (Header.set (Header.set (Header.set [] "Content-Type" "application/json")
          "apikey" supabaseKey) "Authorization" ("Bearer " ++ supabaseKey)) "Prefer" "return=representation"))
      = DoResult.response resp) :
    upsert lib client supabaseURL supabaseKey table items
      = if resp.statusCode ≥ 400 then
          ([Event.upsertCall table,
            Event.httpDo
              (Request.mk "POST"
                (supabaseURL ++ "/rest/v1/" ++ table ++ "?on_conflict=tmdb_id")
                (lib.parsedURL (supabaseURL ++ "/rest/v1/" ++ table ++ "?on_conflict=tmdb_id"))
                body
                (Header.set (Header.set (Header.set (Header.set [] "Content-Type" "application/json")
          "apikey" supabaseKey) "Authorization" ("Bearer " ++ supabaseKey)) "Prefer" "return=representation"))
              (DoResult.response resp)],
            some ("status " ++ toString resp.statusCode ++ ": " ++ resp.body))
        else
          ([Event.upsertCall table,
            Event.httpDo
              (Request.mk "POST"
                (supabaseURL ++ "/rest/v1/" ++ table ++ "?on_conflict=tmdb_id")
                (lib.parsedURL (supabaseURL ++ "/rest/v1/" ++ table ++ "?on_conflict=tmdb_id"))
                body
                (Header.set (Header.set (Header.set (Header.set [] "Content-Type" "application/json")
          "apikey" supabaseKey) "Authorization" ("Bearer " ++ supabaseKey)) "Prefer" "return=representation"))
              (DoResult.response resp),
            Event.log ("[upsert " ++ table ++ "] status=" ++ toString resp.statusCode
              ++ ", response=" ++ resp.body)], none) := by
  obtain ⟨req, res, hres, hreq, hup⟩ :=
    upsert_of_request_built lib client supabaseURL supabaseKey table items body hm hn
  subst hreq
  rw [hdo] at hres
  subst hres
  rw [hup]

/-- C4: whenever the client delivers to `upsert` a response whose status code
is 400 or greater, `upsert` returns the error `status <code>: <body>`, with the
decimal status code and the raw response body, and writes no log entry; for
status 409 the message is `status 409: <body>`.  A response is delivered when
the payload was encoded, `http.NewRequest` accepted the URL and `client.Do`
answered the request of lines 124–131 with it. -/
theorem upsert_error_status (lib : Lib) (client : Client)
    (supabaseURL supabaseKey table : String) (items : Items) (body : String) (resp : Response)
    (hm : lib.jsonMarshal items = .ok body)
    (hn : lib.newRequestError "POST"
      (supabaseURL ++ "/rest/v1/" ++ table ++ "?on_conflict=tmdb_id") = none)
    (hdo : lib.clientDo client
      (Request.mk "POST" (supabaseURL ++ "/rest/v1/" ++ table ++ "?on_conflict=tmdb_id")
        (lib.parsedURL (supabaseURL ++ "/rest/v1/" ++ table ++ "?on_conflict=tmdb_id"))
        body
        (Header.set (Header.set (Header.set (Header.set [] "Content-Type" "application/json")
          "apikey" supabaseKey) "Authorization" ("Bearer " ++ supabaseKey)) "Prefer" "return=representation"))
      = DoResult.response resp)
    (hs : 400 ≤ resp.statusCode) :
    (upsert lib client supabaseURL supabaseKey table items).2
        = some ("status " ++ toString resp.statusCode ++ ": " ++ resp.body)
      ∧ logs (upsert lib client supabaseURL supabaseKey table items).1 = []
      ∧ (resp.statusCode = 409 →
          (upsert lib client supabaseURL supabaseKey table items).2
            = some ("status 409: " ++ resp.body)) := by
  rw [upsert_of_response lib client supabaseURL supabaseKey table items body resp hm hn hdo]
  have hs1 : resp.statusCode ≥ 400 := hs
  rw [if_pos hs1]
  refine ⟨rfl, rfl, ?_⟩
  intro h409
  rw [h409]
  rfl

/-- Witness for C4: the server answers 409 to the upsert of `movies`. -/
theorem upsert_error_status_witness :
    ((sampleLib (answerWith 409 "duplicate key")).jsonMarshal movies = .ok "<json: 2 records>"
      ∧ (sampleLib (answerWith 409 "duplicate key")).newRequestError "POST"
          ("https://demo.supabase.co" ++ "/rest/v1/" ++ "movies" ++ "?on_conflict=tmdb_id")
          = none
      ∧ (sampleLib (answerWith 409 "duplicate key")).clientDo (Client.mk 20)
          (Request.mk "POST"
            ("https://demo.supabase.co" ++ "/rest/v1/" ++ "movies" ++ "?on_conflict=tmdb_id")
            ((sampleLib (answerWith 409 "duplicate key")).parsedURL
              ("https://demo.supabase.co" ++ "/rest/v1/" ++ "movies" ++ "?on_conflict=tmdb_id"))
            "<json: 2 records>"
            (Header.set (Header.set (Header.set (Header.set [] "Content-Type" "application/json")
          "apikey" "service-key") "Authorization" ("Bearer " ++ "service-key")) "Prefer" "return=representation"))
          = DoResult.response (Response.mk 409 "duplicate key")
      ∧ (400 : Int) ≤ (Response.mk 409 "duplicate key").statusCode)
      ∧ ((upsert (sampleLib (answerWith 409 "duplicate key")) (Client.mk 20)
            "https://demo.supabase.co" "service-key" "movies" movies).2
          = some ("status " ++ toString (Response.mk 409 "duplicate key").statusCode ++ ": "
              ++ (Response.mk 409 "duplicate key").body)
        ∧ logs (upsert (sampleLib (answerWith 409 "duplicate key")) (Client.mk 20)
            "https://demo.supabase.co" "service-key" "movies" movies).1 = []
        ∧ ((Response.mk 409 "duplicate key").statusCode = 409 →
          (upsert (sampleLib (answerWith 409 "duplicate key")) (Client.mk 20)
            "https://demo.supabase.co" "service-key" "movies" movies).2
            = some ("status 409: " ++ (Response.mk 409 "duplicate key").body))) :=
  ⟨⟨rfl, by decide, rfl, by decide⟩,
    upsert_error_status (sampleLib (answerWith 409 "duplicate key")) (Client.mk 20)
      "https://demo.supabase.co" "service-key" "movies" movies "<json: 2 records>"
      (Response.mk 409 "duplicate key") rfl (by decide) rfl (by decide)⟩

/-- C5: whenever the client delivers to `upsert`, without transport error, a
response whose status code is below 400, `upsert` returns no error and writes
exactly one log entry, which holds the table name, the decimal status code and
the response body unchanged.  A response is delivered when the payload was
encoded, `http.NewRequest` accepted the URL and `client.Do` answered the
request of lines 124–131 with it. -/
theorem upsert_success_logs (lib : Lib) (client : Client)
    (supabaseURL supabaseKey table : String) (items : Items) (body : String) (resp : Response)
    (hm : lib.jsonMarshal items = .ok body)
    (hn : lib.newRequestError "POST"
      (supabaseURL ++ "/rest/v1/" ++ table ++ "?on_conflict=tmdb_id") = none)
    (hdo : lib.clientDo client
      (Request.mk "POST" (supabaseURL ++ "/rest/v1/" ++ table ++ "?on_conflict=tmdb_id")
        (lib.parsedURL (supabaseURL ++ "/rest/v1/" ++ table ++ "?on_conflict=tmdb_id"))
        body
        (Header.set (Header.set (Header.set (Header.set [] "Content-Type" "application/json")
          "apikey" supabaseKey) "Authorization" ("Bearer " ++ supabaseKey)) "Prefer" "return=representation"))
      = DoResult.response resp)
    (hs : resp.statusCode < 400) :
    (upsert lib client supabaseURL supabaseKey table items).2 = none
      ∧ logs (upsert lib client supabaseURL supabaseKey table items).1
        = ["[upsert " ++ table ++ "] status=" ++ toString resp.statusCode
            ++ ", response=" ++ resp.body] := by
  rw [upsert_of_response lib client supabaseURL supabaseKey table items body resp hm hn hdo]
  have hs1 : ¬ resp.statusCode ≥ 400 := not_le.mpr hs
  rw [if_neg hs1]
  exact ⟨rfl, rfl⟩

/-- Witness for C5: the server answers 201 to the upsert of `movies`. -/
theorem upsert_success_logs_witness :
    ((sampleLib (answerWith 201 "[1000001,1000002]")).jsonMarshal movies
        = .ok "<json: 2 records>"
      ∧ (sampleLib (answerWith 201 "[1000001,1000002]")).newRequestError "POST"
          ("https://demo.supabase.co" ++ "/rest/v1/" ++ "movies" ++ "?on_conflict=tmdb_id")
          = none
      ∧ (sampleLib (answerWith 201 "[1000001,1000002]")).clientDo (Client.mk 20)
          (Request.mk "POST"
            ("https://demo.supabase.co" ++ "/rest/v1/" ++ "movies" ++ "?on_conflict=tmdb_id")
            ((sampleLib (answerWith 201 "[1000001,1000002]")).parsedURL
              ("https://demo.supabase.co" ++ "/rest/v1/" ++ "movies" ++ "?on_conflict=tmdb_id"))
            "<json: 2 records>"
            (Header.set (Header.set (Header.set (Header.set [] "Content-Type" "application/json")
          "apikey" "service-key") "Authorization" ("Bearer " ++ "service-key")) "Prefer" "return=representation"))
          = DoResult.response (Response.mk 201 "[1000001,1000002]")
      ∧ (Response.mk 201 "[1000001,1000002]").statusCode < 400)
      ∧ ((upsert (sampleLib (answerWith 201 "[1000001,1000002]")) (Client.mk 20)
            "https://demo.supabase.co" "service-key" "movies" movies).2 = none
        ∧ logs (upsert (sampleLib (answerWith 201 "[1000001,1000002]")) (Client.mk 20)
            "https://demo.supabase.co" "service-key" "movies" movies).1
          = ["[upsert " ++ "movies" ++ "] status="
              ++ toString (Response.mk 201 "[1000001,1000002]").statusCode
              ++ ", response=" ++ (Response.mk 201 "[1000001,1000002]").body]) :=
  ⟨⟨rfl, by decide, rfl, by decide⟩,
    upsert_success_logs (sampleLib (answerWith 201 "[1000001,1000002]")) (Client.mk 20)
      "https://demo.supabase.co" "service-key" "movies" movies "<json: 2 records>"
      (Response.mk 201 "[1000001,1000002]") rfl (by decide) rfl (by decide)⟩

/-- C6 as stated fails: for the base URL `HTTPS://demo.supabase.co` the payload
is encoded and `http.NewRequest` accepts the URL, and the request handed to the
client has the URL `https://demo.supabase.co/rest/v1/movies?on_conflict=tmdb_id`,
with the scheme lower-cased by `url.Parse`, not the base URL followed by
`/rest/v1/movies?on_conflict=tmdb_id` unchanged. -/
theorem upsert_request_url_counterexample :
    (sampleLib (answerWith 201 "[]")).newRequestError "POST"
        ("HTTPS://demo.supabase.co" ++ "/rest/v1/" ++ "movies" ++ "?on_conflict=tmdb_id") = none
      ∧ (requests (upsert (sampleLib (answerWith 201 "[]")) (Client.mk 20)
            "HTTPS://demo.supabase.co" "service-key" "movies" movies).1).map Request.URL
          = ["https://demo.supabase.co/rest/v1/movies?on_conflict=tmdb_id"]
      ∧ ¬ ∀ req ∈ requests (upsert (sampleLib (answerWith 201 "[]")) (Client.mk 20)
            "HTTPS://demo.supabase.co" "service-key" "movies" movies).1,
          req.URL
            = "HTTPS://demo.supabase.co" ++ "/rest/v1/" ++ "movies" ++ "?on_conflict=tmdb_id" := by
  decide

/-- C6, amended: once the payload is encoded and `http.NewRequest` has accepted
the URL, `upsert` hands exactly one request to the client.  It has method
`POST`; it was built from the URL text made of the base URL, `/rest/v1/`, the
table and `?on_conflict=tmdb_id`, concatenated by `upsert` with nothing changed;
its URL is what `url.Parse` makes of that text; its body is the encoded payload;
and it carries the headers `Content-Type: application/json`, `apikey:
<credential>`, `Authorization: Bearer <credential>` and `Prefer:
return=representation`. -/
theorem upsert_request_shape (lib : Lib) (client : Client)
    (supabaseURL supabaseKey table : String) (items : Items) (body : String)
    (hm : lib.jsonMarshal items = .ok body)
    (hn : lib.newRequestError "POST"
      (supabaseURL ++ "/rest/v1/" ++ table ++ "?on_conflict=tmdb_id") = none) :
    ∃ req, requests (upsert lib client supabaseURL supabaseKey table items).1 = [req]
      ∧ req.method = "POST"
      ∧ req.url = supabaseURL ++ "/rest/v1/" ++ table ++ "?on_conflict=tmdb_id"
      ∧ req.URL
        = lib.parsedURL (supabaseURL ++ "/rest/v1/" ++ table ++ "?on_conflict=tmdb_id")
      ∧ req.body = body
      ∧ req.header.get "Content-Type" = "application/json"
      ∧ req.header.get "apikey" = supabaseKey
      ∧ req.header.get "Authorization" = "Bearer " ++ supabaseKey
      ∧ req.header.get "Prefer" = "return=representation" := by
  obtain ⟨req, res, _, hreq, hup⟩ :=
    upsert_of_request_built lib client supabaseURL supabaseKey table items body hm hn
  refine ⟨req, ?_, ?_⟩
  · rw [hup]
    cases res with
    | transportError err => rfl
    | response resp =>
      by_cases hs : resp.statusCode ≥ 400
      · simp only [hs, if_true]
        rfl
      · simp only [hs, if_false]
        rfl
  · subst hreq
    rw [upsert_header]
    refine ⟨rfl, rfl, rfl, rfl, ?_, ?_, ?_, ?_⟩
    · simp [Header.get, canonical_content_type, List.lookup]
    · simp [Header.get, canonical_apikey, List.lookup]
    · simp [Header.get, canonical_authorization, List.lookup]
    · simp [Header.get, canonical_prefer, List.lookup]

/-- Witness for the amended C6: the upsert of `movies` against a sample endpoint. -/
theorem upsert_request_shape_witness :
    ((sampleLib (answerWith 201 "[]")).jsonMarshal movies = .ok "<json: 2 records>"
      ∧ (sampleLib (answerWith 201 "[]")).newRequestError "POST"
          ("https://demo.supabase.co" ++ "/rest/v1/" ++ "movies" ++ "?on_conflict=tmdb_id")
          = none)
      ∧ ∃ req, requests (upsert (sampleLib (answerWith 201 "[]")) (Client.mk 20)
            "https://demo.supabase.co" "service-key" "movies" movies).1 = [req]
        ∧ req.method = "POST"
        ∧ req.url = "https://demo.supabase.co" ++ "/rest/v1/" ++ "movies" ++ "?on_conflict=tmdb_id"
        ∧ req.URL
          = (sampleLib (answerWith 201 "[]")).parsedURL
              ("https://demo.supabase.co" ++ "/rest/v1/" ++ "movies" ++ "?on_conflict=tmdb_id")
        ∧ req.body = "<json: 2 records>"
        ∧ req.header.get "Content-Type" = "application/json"
        ∧ req.header.get "apikey" = "service-key"
        ∧ req.header.get "Authorization" = "Bearer " ++ "service-key"
        ∧ req.header.get "Prefer" = "return=representation" :=
  ⟨⟨rfl, by decide⟩,
    upsert_request_shape (sampleLib (answerWith 201 "[]")) (Client.mk 20)
      "https://demo.supabase.co" "service-key" "movies" movies "<json: 2 records>"
      rfl (by decide)⟩

/-! ## Control flow of `main` -/

theorem requests_append (xs ys : List Event) :
    requests (xs ++ ys) = requests xs ++ requests ys := by
  induction xs with
  | nil => rfl
  | cons e es ih =>
    cases e <;> simp [requests, ih]

/-- The two shapes of the trace of an `upsert` that returns an error: it
stopped before the request was built, or it handed one request to the client. -/
theorem upsert_error_trace (lib : Lib) (client : Client)
    (supabaseURL supabaseKey table : String) (items : Items) (err : String)
    (herr : (upsert lib client supabaseURL supabaseKey table items).2 = some err) :
    ((upsert lib client supabaseURL supabaseKey table items).1 = [Event.upsertCall table]
        ∧ ¬ ∃ body, lib.jsonMarshal items = .ok body
            ∧ lib.newRequestError "POST"
                (supabaseURL ++ "/rest/v1/" ++ table ++ "?on_conflict=tmdb_id") = none)
      ∨ (∃ req res,
          (upsert lib client supabaseURL supabaseKey table items).1
              = [Event.upsertCall table, Event.httpDo req res]
            ∧ req.url = supabaseURL ++ "/rest/v1/" ++ table ++ "?on_conflict=tmdb_id"
            ∧ ∃ body, lib.jsonMarshal items = .ok body
                ∧ lib.newRequestError "POST"
                    (supabaseURL ++ "/rest/v1/" ++ table ++ "?on_conflict=tmdb_id") = none) := by
  cases hm : lib.jsonMarshal items with
  | error e =>
    left
    rw [upsert_of_marshal_error lib client supabaseURL supabaseKey table items e hm]
    exact ⟨rfl, by simp⟩
  | ok body =>
    cases hn : lib.newRequestError "POST"
        (supabaseURL ++ "/rest/v1/" ++ table ++ "?on_conflict=tmdb_id") with
    | some e =>
      left
      rw [upsert_of_new_request_error lib client supabaseURL supabaseKey table items body e hm hn]
      exact ⟨rfl, by simp⟩
    | none =>
      right
      obtain ⟨req, res, _, hreq, hup⟩ :=
        upsert_of_request_built lib client supabaseURL supabaseKey table items body hm hn
      rw [hup] at herr ⊢
      refine ⟨req, res, ?_, by rw [hreq], body, rfl, rfl⟩
      cases res with
      | transportError e => rfl
      | response resp =>
        by_cases hs : resp.statusCode ≥ 400
        · simp only [hs, if_true]
        · simp only [hs, if_false] at herr
          simp at herr

theorem main_live_movies_error (lib : Lib) (env : Env) (err : String)
    (hcfg : ¬ ((resolveConfig env).1 = "" ∨ (resolveConfig env).2 = ""))
    (herr : (upsert lib (Client.mk 20) (resolveConfig env).1 (resolveConfig env).2
      "movies" movies).2 = some err) :
    main lib env false
      = Run.mk (Event.newClient (Client.mk 20)
          :: (upsert lib (Client.mk 20) (resolveConfig env).1 (resolveConfig env).2
              "movies" movies).1
          ++ [Event.log ("Falha upsert movies: " ++ err)]) Exit.fatal := by
  unfold main
  simp only [if_neg hcfg, Bool.false_eq_true, if_false]
  rcases hup : upsert lib (Client.mk 20) (resolveConfig env).1 (resolveConfig env).2
      "movies" movies with ⟨ev1, _ | e⟩
  · rw [hup] at herr
    simp at herr
  · rw [hup] at herr
    simp at herr
    subst herr
    rfl

theorem movies_url_ne_series_url (supabaseURL : String) :
    supabaseURL ++ "/rest/v1/" ++ "movies" ++ "?on_conflict=tmdb_id"
      ≠ supabaseURL ++ "/rest/v1/" ++ "series" ++ "?on_conflict=tmdb_id" := by
  intro h
  have hd := congrArg String.data h
  simp at hd

/-- C7 as stated fails: with an endpoint that ends in a carriage return the
configuration is resolved and the first `upsert` returns an error, from
`http.NewRequest`, before any request is handed to the client; the run ends
fatally with no request in its trace, not one. -/
theorem movies_error_counterexample :
    (resolveConfig crEnv).1 ≠ "" ∧ (resolveConfig crEnv).2 ≠ ""
      ∧ (upsert (sampleLib (answerWith 500 "boom")) (Client.mk 20) (resolveConfig crEnv).1
          (resolveConfig crEnv).2 "movies" movies).2 ≠ none
      ∧ (main (sampleLib (answerWith 500 "boom")) crEnv false).exit = Exit.fatal
      ∧ requests (main (sampleLib (answerWith 500 "boom")) crEnv false).trace = []
      ∧ (requests (main (sampleLib (answerWith 500 "boom")) crEnv false).trace).length ≠ 1 := by
  decide

/-- C7, amended: in live mode with the configuration resolved, if the first
`upsert` (table `movies`) returns an error, `main` ends fatally without calling
`upsert` for `series` and without a request for `series`: every request of the
trace is the one for `movies`, there is at most one, and there is exactly one
precisely when the payload was encoded and `http.NewRequest` accepted the URL
(the error is then a transport failure or a status of 400 or more). -/
theorem main_stops_after_movies_error (lib : Lib) (env : Env) (err : String)
    (hurl : (resolveConfig env).1 ≠ "") (hkey : (resolveConfig env).2 ≠ "")
    (herr : (upsert lib (Client.mk 20) (resolveConfig env).1 (resolveConfig env).2
      "movies" movies).2 = some err) :
    (main lib env false).exit = Exit.fatal
      ∧ Event.upsertCall "series" ∉ (main lib env false).trace
      ∧ (∀ req ∈ requests (main lib env false).trace,
          req.url = (resolveConfig env).1 ++ "/rest/v1/" ++ "movies" ++ "?on_conflict=tmdb_id"
            ∧ req.url
              ≠ (resolveConfig env).1 ++ "/rest/v1/" ++ "series" ++ "?on_conflict=tmdb_id")
      ∧ (requests (main lib env false).trace).length ≤ 1
      ∧ ((requests (main lib env false).trace).length = 1
          ↔ ∃ body, lib.jsonMarshal movies = .ok body
              ∧ lib.newRequestError "POST"
                  ((resolveConfig env).1 ++ "/rest/v1/" ++ "movies" ++ "?on_conflict=tmdb_id")
                = none) := by
  have hcfg : ¬ ((resolveConfig env).1 = "" ∨ (resolveConfig env).2 = "") := by
    rintro (h | h)
    · exact hurl h
    · exact hkey h
  rw [main_live_movies_error lib env err hcfg herr]
  rcases upsert_error_trace lib (Client.mk 20) (resolveConfig env).1 (resolveConfig env).2
      "movies" movies err herr with ⟨htr, hnot⟩ | ⟨req, res, htr, hreq, hbuilt⟩
  · rw [htr]
    refine ⟨rfl, by simp, ?_, ?_, ?_⟩
    · intro r hr
      simp [requests] at hr
    · simp [requests]
    · constructor
      · intro h
        simp [requests] at h
      · intro h
        exact absurd h hnot
  · rw [htr]
    refine ⟨rfl, by simp, ?_, ?_, ?_⟩
    · intro r hr
      simp [requests] at hr
      subst hr
      exact ⟨hreq, by rw [hreq]; exact movies_url_ne_series_url _⟩
    · simp [requests]
    · constructor
      · intro _
        exact hbuilt
      · intro _
        simp [requests]

/-- Witness for the amended C7: both primary variables set, the server answers
500 to the upsert of `movies`. -/
theorem main_stops_after_movies_error_witness :
    ((resolveConfig primaryEnv).1 ≠ "" ∧ (resolveConfig primaryEnv).2 ≠ ""
        ∧ (upsert (sampleLib (answerWith 500 "boom")) (Client.mk 20) (resolveConfig primaryEnv).1
            (resolveConfig primaryEnv).2 "movies" movies).2 = some "status 500: boom")
      ∧ ((main (sampleLib (answerWith 500 "boom")) primaryEnv false).exit = Exit.fatal
        ∧ Event.upsertCall "series" ∉ (main (sampleLib (answerWith 500 "boom")) primaryEnv false).trace
        ∧ (∀ req ∈ requests (main (sampleLib (answerWith 500 "boom")) primaryEnv false).trace,
            req.url = (resolveConfig primaryEnv).1 ++ "/rest/v1/" ++ "movies"
                ++ "?on_conflict=tmdb_id"
              ∧ req.url ≠ (resolveConfig primaryEnv).1 ++ "/rest/v1/" ++ "series"
                ++ "?on_conflict=tmdb_id")
        ∧ (requests (main (sampleLib (answerWith 500 "boom")) primaryEnv false).trace).length ≤ 1
        ∧ ((requests (main (sampleLib (answerWith 500 "boom")) primaryEnv false).trace).length = 1
            ↔ ∃ body, (sampleLib (answerWith 500 "boom")).jsonMarshal movies = .ok body
                ∧ (sampleLib (answerWith 500 "boom")).newRequestError "POST"
                    ((resolveConfig primaryEnv).1 ++ "/rest/v1/" ++ "movies"
                      ++ "?on_conflict=tmdb_id") = none)) :=
  ⟨by decide,
    main_stops_after_movies_error (sampleLib (answerWith 500 "boom")) primaryEnv
      "status 500: boom" (by decide) (by decide) (by decide)⟩

/-- C8: with the configuration resolved, a run with the dry-run flag set writes
the `movies` payload section, then the `series` payload section, then the
closing dry-run line, all to standard output, and returns normally; it hands no
request to an HTTP client, constructs no client and does not call `upsert`. -/
theorem dry_run_no_network (lib : Lib) (env : Env)
    (hurl : (resolveConfig env).1 ≠ "") (hkey : (resolveConfig env).2 ≠ "") :
    (main lib env true).exit = Exit.ok
      ∧ (∃ b1 b2, (main lib env true).trace
            = [Event.stdout ("--- " ++ "movies" ++ " payload ---\n" ++ b1 ++ "\n"),
               Event.stdout ("--- " ++ "series" ++ " payload ---\n" ++ b2 ++ "\n"),
               Event.stdout "-- dry-run: nenhum dado enviado\n"]
          ∧ (∀ b, lib.jsonMarshalIndent movies = .ok b → b1 = b)
          ∧ (∀ b, lib.jsonMarshalIndent series = .ok b → b2 = b))
      ∧ requests (main lib env true).trace = []
      ∧ (∀ client, Event.newClient client ∉ (main lib env true).trace)
      ∧ (∀ table, Event.upsertCall table ∉ (main lib env true).trace) := by
  have hcfg : ¬ ((resolveConfig env).1 = "" ∨ (resolveConfig env).2 = "") := by
    rintro (h | h)
    · exact hurl h
    · exact hkey h
  rw [main_dry_of_config lib env hcfg]
  unfold prettyPrint
  refine ⟨rfl, ⟨_, _, rfl, ?_, ?_⟩, rfl, ?_, ?_⟩
  · intro b hb
    rw [hb]
  · intro b hb
    rw [hb]
  · intro client
    simp
  · intro table
    simp

/-- Witness for C8: both primary variables set, dry-run mode. -/
theorem dry_run_no_network_witness :
    ((resolveConfig primaryEnv).1 ≠ "" ∧ (resolveConfig primaryEnv).2 ≠ "")
      ∧ ((main (sampleLib (answerWith 201 "[]")) primaryEnv true).exit = Exit.ok
        ∧ (∃ b1 b2, (main (sampleLib (answerWith 201 "[]")) primaryEnv true).trace
              = [Event.stdout ("--- " ++ "movies" ++ " payload ---\n" ++ b1 ++ "\n"),
                 Event.stdout ("--- " ++ "series" ++ " payload ---\n" ++ b2 ++ "\n"),
                 Event.stdout "-- dry-run: nenhum dado enviado\n"]
            ∧ (∀ b, (sampleLib (answerWith 201 "[]")).jsonMarshalIndent movies = .ok b → b1 = b)
            ∧ (∀ b, (sampleLib (answerWith 201 "[]")).jsonMarshalIndent series = .ok b → b2 = b))
        ∧ requests (main (sampleLib (answerWith 201 "[]")) primaryEnv true).trace = []
        ∧ (∀ client,
            Event.newClient client ∉ (main (sampleLib (answerWith 201 "[]")) primaryEnv true).trace)
        ∧ (∀ table,
            Event.upsertCall table
              ∉ (main (sampleLib (answerWith 201 "[]")) primaryEnv true).trace)) :=
  ⟨by decide,
    dry_run_no_network (sampleLib (answerWith 201 "[]")) primaryEnv (by decide) (by decide)⟩

/-- C1: for every environment the endpoint is `SUPABASE_URL` when that is
non-empty and `VITE_SUPABASE_URL` otherwise, the credential is `SUPABASE_KEY`
when that is non-empty and `VITE_SUPABASE_ANON_KEY` otherwise, and `main` ends
with the fatal configuration error exactly when the resolved endpoint or the
resolved credential is empty. -/
theorem main_config_resolution (lib : Lib) (env : Env) (dry : Bool) :
    (resolveConfig env).1
        = (if env "SUPABASE_URL" ≠ "" then env "SUPABASE_URL" else env "VITE_SUPABASE_URL")
      ∧ (resolveConfig env).2
        = (if env "SUPABASE_KEY" ≠ "" then env "SUPABASE_KEY"
            else env "VITE_SUPABASE_ANON_KEY")
      ∧ (main lib env dry = configFatal
          ↔ (resolveConfig env).1 = "" ∨ (resolveConfig env).2 = "") := by
  refine ⟨?_, ?_, ?_, ?_⟩
  · rw [resolveConfig_fst]
    by_cases hu : env "SUPABASE_URL" = "" <;> simp [hu]
  · rw [resolveConfig_snd]
    by_cases hk : env "SUPABASE_KEY" = "" <;> simp [hk]
  · intro hrun
    by_contra hcfg
    exact main_ne_configFatal lib env dry hcfg hrun
  · exact main_of_config_empty lib env dry

/-- C2: when the primary pair is fully populated, or the fallback pair is, the
fatal configuration error is not raised and both resolved values are non-empty. -/
theorem config_succeeds_of_complete_pair (lib : Lib) (env : Env) (dry : Bool)
    (h : (env "SUPABASE_URL" ≠ "" ∧ env "SUPABASE_KEY" ≠ "")
      ∨ (env "VITE_SUPABASE_URL" ≠ "" ∧ env "VITE_SUPABASE_ANON_KEY" ≠ "")) :
    main lib env dry ≠ configFatal
      ∧ (resolveConfig env).1 ≠ "" ∧ (resolveConfig env).2 ≠ "" := by
  have h1 : (resolveConfig env).1 ≠ "" := by
    rw [resolveConfig_fst]
    by_cases hu : env "SUPABASE_URL" = ""
    · rcases h with ⟨hp, _⟩ | ⟨hf, _⟩
      · exact absurd hu hp
      · simpa [hu] using hf
    · simp [hu]
  have h2 : (resolveConfig env).2 ≠ "" := by
    rw [resolveConfig_snd]
    by_cases hk : env "SUPABASE_KEY" = ""
    · rcases h with ⟨_, hp⟩ | ⟨_, hf⟩
      · exact absurd hk hp
      · simpa [hk] using hf
    · simp [hk]
  refine ⟨main_ne_configFatal lib env dry ?_, h1, h2⟩
  rintro (h | h)
  · exact h1 h
  · exact h2 h

/-- Witness for C2: only the fallback pair is set, live mode. -/
theorem config_succeeds_of_complete_pair_witness :
    ((fallbackEnv "SUPABASE_URL" ≠ "" ∧ fallbackEnv "SUPABASE_KEY" ≠ "")
        ∨ (fallbackEnv "VITE_SUPABASE_URL" ≠ "" ∧ fallbackEnv "VITE_SUPABASE_ANON_KEY" ≠ ""))
      ∧ (main (sampleLib (answerWith 201 "[]")) fallbackEnv false ≠ configFatal
        ∧ (resolveConfig fallbackEnv).1 ≠ "" ∧ (resolveConfig fallbackEnv).2 ≠ "") :=
  ⟨by decide,
    config_succeeds_of_complete_pair (sampleLib (answerWith 201 "[]")) fallbackEnv false
      (by decide)⟩

/-- C3 as stated fails: with the endpoint only in the primary pair and the
credential only in the fallback pair neither pair is complete, yet the dry run
prints the payloads and ends normally, and the live run sends both requests. -/
theorem incomplete_pairs_counterexample :
    (mixedEnv "SUPABASE_URL" = "" ∨ mixedEnv "SUPABASE_KEY" = "")
      ∧ (mixedEnv "VITE_SUPABASE_URL" = "" ∨ mixedEnv "VITE_SUPABASE_ANON_KEY" = "")
      ∧ main (sampleLib (answerWith 201 "[]")) mixedEnv true ≠ configFatal
      ∧ (main (sampleLib (answerWith 201 "[]")) mixedEnv true).exit = Exit.ok
      ∧ main (sampleLib (answerWith 201 "[]")) mixedEnv false ≠ configFatal
      ∧ (requests (main (sampleLib (answerWith 201 "[]")) mixedEnv false).trace).map Request.url
          = ["https://demo.supabase.co/rest/v1/movies?on_conflict=tmdb_id",
             "https://demo.supabase.co/rest/v1/series?on_conflict=tmdb_id"] := by
  decide

/-- C3, amended: when a value is missing from both pairs (no endpoint in
`SUPABASE_URL` and `VITE_SUPABASE_URL`, or no credential in `SUPABASE_KEY` and
`VITE_SUPABASE_ANON_KEY`), `main` reports the configuration error and hands no
request to the HTTP client, in live and in dry-run mode. -/
theorem config_fatal_of_missing_value (lib : Lib) (env : Env) (dry : Bool)
    (h : (env "SUPABASE_URL" = "" ∧ env "VITE_SUPABASE_URL" = "")
      ∨ (env "SUPABASE_KEY" = "" ∧ env "VITE_SUPABASE_ANON_KEY" = "")) :
    main lib env dry = configFatal ∧ requests (main lib env dry).trace = [] := by
  have hcfg : (resolveConfig env).1 = "" ∨ (resolveConfig env).2 = "" := by
    rw [resolveConfig_fst, resolveConfig_snd]
    rcases h with ⟨hu, hv⟩ | ⟨hk, hv⟩
    · left; simp [hu, hv]
    · right; simp [hk, hv]
  rw [main_of_config_empty lib env dry hcfg]
  exact ⟨rfl, rfl⟩

/-- Witness for the amended C3: an endpoint but no credential in either pair, live mode. -/
theorem config_fatal_of_missing_value_witness :
    ((urlOnlyEnv "SUPABASE_URL" = "" ∧ urlOnlyEnv "VITE_SUPABASE_URL" = "")
        ∨ (urlOnlyEnv "SUPABASE_KEY" = "" ∧ urlOnlyEnv "VITE_SUPABASE_ANON_KEY" = ""))
      ∧ (main (sampleLib (answerWith 201 "[]")) urlOnlyEnv false = configFatal
        ∧ requests (main (sampleLib (answerWith 201 "[]")) urlOnlyEnv false).trace = []) :=
  ⟨by decide,
    config_fatal_of_missing_value (sampleLib (answerWith 201 "[]")) urlOnlyEnv false
      (by decide)⟩

/-- C9: in each of the two collections built by `main` every record has a
`tmdb_id` and no two records of the collection share it. -/
theorem tmdb_id_unique :
    (∀ r ∈ movies, (tmdbID r).isSome) ∧ (movies.map tmdbID).Nodup
      ∧ (∀ r ∈ series, (tmdbID r).isSome) ∧ (series.map tmdbID).Nodup
      ∧ movies.map tmdbID = [some (Value.int 1000001), some (Value.int 1000002)]
      ∧ series.map tmdbID = [some (Value.int 2000001), some (Value.int 2000002)] := by
  decide

/-- C10: when the resolved endpoint or the resolved credential is empty, a run
with the dry-run flag set ends with the fatal configuration error and writes
nothing to standard output, so neither payload section is printed. -/
theorem dry_run_config_check_first (lib : Lib) (env : Env)
    (h : (resolveConfig env).1 = "" ∨ (resolveConfig env).2 = "") :
    main lib env true = configFatal
      ∧ (main lib env true).exit = Exit.fatal
      ∧ logs (main lib env true).trace = [configError]
      ∧ stdouts (main lib env true).trace = [] := by
  rw [main_of_config_empty lib env true h]
  exact ⟨rfl, rfl, rfl, rfl⟩

/-- Witness for C10: no variable set, dry-run mode. -/
theorem dry_run_config_check_first_witness :
    ((resolveConfig emptyEnv).1 = "" ∨ (resolveConfig emptyEnv).2 = "")
      ∧ (main (sampleLib (answerWith 201 "[]")) emptyEnv true = configFatal
        ∧ (main (sampleLib (answerWith 201 "[]")) emptyEnv true).exit = Exit.fatal
        ∧ logs (main (sampleLib (answerWith 201 "[]")) emptyEnv true).trace = [configError]
        ∧ stdouts (main (sampleLib (answerWith 201 "[]")) emptyEnv true).trace = []) :=
  ⟨by decide,
    dry_run_config_check_first (sampleLib (answerWith 201 "[]")) emptyEnv (by decide)⟩

end PopulateSupabase
